import Mathlib

/-!
Verification of the WinGo quantum expert system
(src/quantum_expert_system.py) against its specification.

Shallow embedding conventions:
* Python floats used for the sub-model confidences and ratios are
  modelled as exact rationals.  All numeric literals appearing in the
  source (0.4, 0.5, 0.6, 0.65, 0.70, 0.75) and the quotients
  big_count / len(results) with window length at most 20 are far
  enough apart that the IEEE-754 double comparisons made by the Python
  code coincide with the exact rational comparisons modelled here.
* Categories, predictions and colors are the Python strings
  ("Big", "Small", "green", "red", "violet").
* The browser, the database and the Telegram network are effects; the
  functions below take their observable inputs (the visible page text,
  the training rows, the network outcome) as explicit arguments.
-/

namespace QuantumExpertSystem

/-- One row of the quantum_game_results table as returned by
get_training_data (source lines 520-531): a dictionary with keys
period, number and big_small. -/
structure TrainingRow where
  period : String
  number : Nat
  big_small : String
deriving Repr, DecidableEq

/-- Result dictionary of quantum_prediction_engine and
fallback_prediction.  The free-text reasoning entry is not modelled;
no claim concerns it. -/
structure PredictionResult where
  prediction : String
  confidence : ℚ
  strategy : String
deriving Repr, DecidableEq

/-- Embedding of trend_analysis (source lines 394-403): share of "Big"
among the results (0.5 for an empty list); above 0.6 call ("Big",
0.75), below 0.4 call ("Small", 0.75), otherwise the side that a share
of at least 0.5 favours, at 0.65. -/
def trend_analysis (results : List String) : String × ℚ :=
  let big_count : ℕ := results.count "Big"
  let frac : ℚ := if results = [] then 1/2 else (big_count : ℚ) / (results.length : ℚ)
  if frac > 3/5 then ("Big", 3/4)
  else if frac < 2/5 then ("Small", 3/4)
  else ((if frac ≥ 1/2 then "Big" else "Small"), 13/20)

/-- The leading-run loop of pattern_analysis (source lines 409-414):
streak starts at 1 and grows while results[i] equals results[0],
stopping at the first mismatch. -/
def patternStreak (r0 : String) (rest : List String) : Nat :=
  1 + (rest.takeWhile (fun s => s = r0)).length

/-- Embedding of pattern_analysis (source lines 405-420): fewer than 3
entries give ("Small", 0.5); a leading run of length at least 3
predicts the opposite of the first element at 0.70; otherwise the
first element at 0.60. -/
def pattern_analysis (results : List String) : String × ℚ :=
  if results.length < 3 then ("Small", 1/2)
  else
    match results with
    | [] => ("Small", 1/2)
    | r0 :: rest =>
      if patternStreak r0 rest ≥ 3 then
        ((if r0 = "Big" then "Small" else "Big"), 7/10)
      else (r0, 3/5)

/-- Embedding of statistical_analysis (source lines 422-424): "Big"
iff big_count is at least len(results)/2, always at confidence 0.65. -/
def statistical_analysis (results : List String) : String × ℚ :=
  ((if ((results.count "Big" : ℕ) : ℚ) ≥ (results.length : ℚ) / 2 then "Big" else "Small"),
   13/20)

/-- Embedding of fallback_prediction (source lines 426-432). -/
def fallback_prediction : PredictionResult :=
  { prediction := "Small", confidence := 1/2, strategy := "fallback" }

/-- The window of source line 372: the big_small fields of the first
20 training rows. -/
def recentResults (training_data : List TrainingRow) : List String :=
  (training_data.take 20).map TrainingRow.big_small

/-- Embedding of quantum_prediction_engine (source lines 366-392):
below 10 rows fall back; otherwise run the three sub-models on the
categories of the first 20 rows, take the higher-confidence of
Trend/Pattern as the category and the max of all three confidences. -/
def quantum_prediction_engine (training_data : List TrainingRow) : PredictionResult :=
  if training_data.length < 10 then fallback_prediction
  else
    let results := recentResults training_data
    let trend := trend_analysis results
    let pattern := pattern_analysis results
    let statistical := statistical_analysis results
    let final_prediction := if trend.2 > pattern.2 then trend.1 else pattern.1
    let confidence := max trend.2 (max pattern.2 statistical.2)
    { prediction := final_prediction
    , confidence := confidence
    , strategy := "quantum_adaptive" }

/-! ## Result extraction (extract_game_data, source lines 329-364) -/

/-- One extracted record (source lines 349-354): a dictionary with
keys period, number, big_small and color. -/
structure Outcome where
  period : String
  number : Nat
  big_small : String
  color : String
deriving Repr, DecidableEq

/-- The color expression of source line 353: green when the number is
0, red when it is odd, violet otherwise. -/
def colorOf (n : Nat) : String :=
  if n = 0 then "green" else if n % 2 = 1 then "red" else "violet"

/-- Python line2.replace(" ", "") of source line 342. -/
def stripSpaces (s : String) : String :=
  ⟨s.data.filter (fun c => c ≠ ' ')⟩

/-- Python line1.replace(" ", "").replace("-", "") of source line 341. -/
def stripSpacesHyphens (s : String) : String :=
  ⟨s.data.filter (fun c => c ≠ ' ' ∧ c ≠ '-')⟩

/-- Python s.isdigit() for ASCII text: non-empty and all digits. -/
def pyIsDigit (s : String) : Bool :=
  s ≠ "" && s.data.all Char.isDigit

/-- Python int(s) on a digit string. -/
def digitsToNat (s : String) : Nat :=
  s.data.foldl (fun acc c => 10 * acc + (c.toNat - 48)) 0

/-- The acceptance test of source lines 345-347, applied to the
cleaned candidates: line1 is lines[i] minus spaces and hyphens, line2
is lines[i+1] minus spaces, line3 is lines[i+2] verbatim. -/
def acceptTriple (line1 line2 line3 : String) : Bool :=
  pyIsDigit line1 && line1.length = 17 &&
  pyIsDigit line2 && digitsToNat line2 ≤ 9 &&
  (line3 = "Big" || line3 = "Small")

/-- The record appended at source lines 349-354. -/
def mkOutcome (line1 line2 line3 : String) : Outcome :=
  { period := line1
  , number := digitsToNat line2
  , big_small := line3
  , color := colorOf (digitsToNat line2) }

/-- The scan of source lines 339-357, literally: while i < len - 2,
test the cleaned 3-line window at i; on acceptance emit one record
and advance by 3, otherwise advance by 1. -/
def extractFrom (lines : List String) (i : Nat) : List Outcome :=
  if i + 2 < lines.length then
    if acceptTriple (stripSpacesHyphens (lines.getD i ""))
        (stripSpaces (lines.getD (i+1) "")) (lines.getD (i+2) "") then
      mkOutcome (stripSpacesHyphens (lines.getD i ""))
        (stripSpaces (lines.getD (i+1) "")) (lines.getD (i+2) "")
        :: extractFrom lines (i+3)
    else extractFrom lines (i+1)
  else []
termination_by lines.length - i

/-- The same scan phrased on the suffix of lines starting at the
window position; used to compute and to reason by structural
induction.  Proved equal to extractFrom below. -/
def extractGo : List String → List Outcome
  | l1 :: l2 :: l3 :: rest =>
    if acceptTriple (stripSpacesHyphens l1) (stripSpaces l2) l3 then
      mkOutcome (stripSpacesHyphens l1) (stripSpaces l2) l3 :: extractGo rest
    else extractGo (l2 :: l3 :: rest)
  | _ => []

/-- Helper for splitNl: fold over the characters, cutting at each
newline; acc holds the current chunk reversed. -/
def splitNlGo : List Char → List Char → List String
  | [], acc => [⟨acc.reverse⟩]
  | c :: cs, acc => if c = '\n' then ⟨acc.reverse⟩ :: splitNlGo cs [] else splitNlGo cs (c :: acc)

/-- Python body_text.split("\n") of source line 337, character by
character. -/
def splitNl (s : String) : List String :=
  splitNlGo s.data []

/-- Python line.strip() of source line 337: drop leading and trailing
whitespace. -/
def pyStrip (s : String) : String :=
  ⟨(((s.data.dropWhile Char.isWhitespace).reverse.dropWhile Char.isWhitespace).reverse)⟩

/-- Source line 337: the non-empty stripped lines of the page body
text. -/
def pageLines (body : String) : List String :=
  ((splitNl body).map pyStrip).filter (fun l => decide (l ≠ ""))

/-- Embedding of extract_game_data (source lines 329-364) as a
function of the visible body text read from the browser. -/
def extract_game_data (body : String) : List Outcome :=
  extractFrom (pageLines body) 0

/-! ## Spec-side predicates for the extraction claims -/

/-- Digits-only in the sense of the spec (and of Python isdigit):
non-empty, every character a digit. -/
def DigitsOnly (s : String) : Prop :=
  s ≠ "" ∧ ∀ c ∈ s.data, c.isDigit = true

instance (s : String) : Decidable (DigitsOnly s) := by
  unfold DigitsOnly; infer_instance

/-- The acceptance condition as the spec words it: the period
candidate is digits-only of fixed length 17, the draw candidate is
digits-only with value in [0,9], and the category candidate is exactly
"Big" or "Small". -/
def SpecAccept (p d c : String) : Prop :=
  DigitsOnly p ∧ p.length = 17 ∧ DigitsOnly d ∧ digitsToNat d ≤ 9 ∧
  (c = "Big" ∨ c = "Small")

instance (p d c : String) : Decidable (SpecAccept p d c) := by
  unfold SpecAccept; infer_instance

/-! ## Scheduler notification step (source lines 502-509) and
Telegram dispatch (source lines 85-103) -/

/-- Python truthiness of an optional string: None and the empty string
are falsy. -/
def pyTruthy : Option String → Bool
  | none => false
  | some s => s ≠ ""

/-- The notification step of one scheduler cycle (source lines
504-509): given the stored self.current_running_period and the
observed current_period, return (message dispatched?, new stored
period).  Dispatch happens exactly when current_period is truthy and
differs from the stored period; only then is the stored period
updated. -/
def notifyStep (stored observed : Option String) : Bool × Option String :=
  if pyTruthy observed ∧ observed ≠ stored then (true, observed) else (false, stored)

/-- Outcome of the one effectful statement of send_telegram_message
(requests.post, source line 98): either an exception or an HTTP status
code. -/
inductive NetOutcome where
  | raises (msg : String)
  | status (code : Nat)
deriving Repr, DecidableEq

/-- Observable behaviour of one send_telegram_message call: the
returned boolean, and whether a network send was performed at all. -/
structure SendTrace where
  success : Bool
  attempted : Bool
deriving Repr, DecidableEq

/-- Embedding of send_telegram_message (source lines 85-103): missing
or empty credentials return False without sending; an exception from
the post is caught and yields False; otherwise the result is the
comparison of the status code with 200.  Every path returns a
boolean. -/
def send_telegram_message (botToken channelId : Option String)
    (net : NetOutcome) : SendTrace :=
  if pyTruthy botToken ∧ pyTruthy channelId then
    match net with
    | .raises _ => { success := false, attempted := true }
    | .status code => { success := decide (code = 200), attempted := true }
  else { success := false, attempted := false }

/-! ## Concrete inputs used by the witnesses and the counterexample -/

/-- Twelve identical "Big" training rows. -/
def demoRows : List TrainingRow :=
  List.replicate 12 { period := "p", number := 1, big_small := "Big" }

/-- A 20-entry window with 15 "Big" and 5 "Small". -/
def demo20 : List String :=
  List.replicate 15 "Big" ++ List.replicate 5 "Small"

/-- A page body listing one valid record. -/
def demoBody : String :=
  "WinGo\n12345678901234567\n4\nSmall\nPeriod"

/-- The record extracted from demoBody. -/
def demoOutcome : Outcome :=
  { period := "12345678901234567", number := 4, big_small := "Small", color := "violet" }

/-- A page body repeating the same period twice in valid windows. -/
def dupBody : String :=
  "12345678901234567\n5\nBig\n12345678901234567\n5\nBig"

/-! ## Helper lemmas -/

/-- A list of fewer than 3 lines yields no records. -/
theorem extractGo_nil_of_short (l : List String) (hl : l.length ≤ 2) :
    extractGo l = [] := by
  rcases l with _ | ⟨a, _ | ⟨b, _ | ⟨c, rest⟩⟩⟩
  · rfl
  · rfl
  · rfl
  · simp only [List.length_cons] at hl; omega

/-- The literal index-based scan agrees with the suffix-based scan. -/
theorem extractFrom_eq_extractGo (lines : List String) (i : Nat) :
    extractFrom lines i = extractGo (lines.drop i) := by
  have key : ∀ n (lines : List String) (i : Nat), lines.length - i ≤ n →
      extractFrom lines i = extractGo (lines.drop i) := by
    intro n
    induction n with
    | zero =>
      intro lines i h
      rw [extractFrom, if_neg (by omega), List.drop_eq_nil_of_le (by omega)]
      rfl
    | succ n ih =>
      intro lines i h
      by_cases hg : i + 2 < lines.length
      · have h0 : i < lines.length := by omega
        have h1 : i + 1 < lines.length := by omega
        have hd : lines.drop i =
            lines.getD i "" :: lines.getD (i+1) "" :: lines.getD (i+2) ""
              :: lines.drop (i+3) := by
          rw [List.drop_eq_getElem_cons h0, List.drop_eq_getElem_cons h1,
            List.drop_eq_getElem_cons hg, List.getD_eq_getElem _ _ h0,
            List.getD_eq_getElem _ _ h1, List.getD_eq_getElem _ _ hg]
        have hd1 : lines.drop (i+1) =
            lines.getD (i+1) "" :: lines.getD (i+2) "" :: lines.drop (i+3) := by
          rw [List.drop_eq_getElem_cons h1, List.drop_eq_getElem_cons hg,
            List.getD_eq_getElem _ _ h1, List.getD_eq_getElem _ _ hg]
        rw [extractFrom, if_pos hg, hd]
        simp only [extractGo]
        split_ifs with hacc
        · rw [ih lines (i+3) (by omega)]
        · rw [ih lines (i+1) (by omega), hd1]
      · rw [extractFrom, if_neg hg]
        have hlen : (lines.drop i).length ≤ 2 := by
          rw [List.length_drop]; omega
        exact (extractGo_nil_of_short _ hlen).symm
  exact key lines.length lines i (by omega)

/-- The embedded extractor, rephrased on the structurally recursive
scan; used to evaluate it on concrete page text. -/
theorem extract_game_data_eq_go (body : String) :
    extract_game_data body = extractGo (pageLines body) := by
  unfold extract_game_data
  simpa using extractFrom_eq_extractGo (pageLines body) 0

/-- Every record emitted by the scan carries the derived color of its
number. -/
theorem extractGo_color (l : List String) :
    ∀ o ∈ extractGo l, o.color = colorOf o.number := by
  have key : ∀ n (l : List String), l.length ≤ n →
      ∀ o ∈ extractGo l, o.color = colorOf o.number := by
    intro n
    induction n with
    | zero =>
      intro l h o ho
      rcases l with _ | ⟨a, t⟩
      · exact absurd ho (List.not_mem_nil o)
      · simp only [List.length_cons] at h; omega
    | succ n ih =>
      intro l h o ho
      rcases l with _ | ⟨a, _ | ⟨b, _ | ⟨c, rest⟩⟩⟩
      · exact absurd ho (List.not_mem_nil o)
      · exact absurd ho (List.not_mem_nil o)
      · exact absurd ho (List.not_mem_nil o)
      · simp only [extractGo] at ho
        simp only [List.length_cons] at h
        split_ifs at ho with hacc
        · rcases List.mem_cons.mp ho with rfl | htail
          · rfl
          · exact ih rest (by omega) o htail
        · exact ih (b :: c :: rest) (by simp only [List.length_cons]; omega) o ho
  exact key l.length l (by omega)

/-- The boolean acceptance test of the source is the acceptance
condition as the spec words it. -/
theorem acceptTriple_iff (l1 l2 l3 : String) :
    acceptTriple l1 l2 l3 = true ↔ SpecAccept l1 l2 l3 := by
  unfold acceptTriple SpecAccept DigitsOnly pyIsDigit
  simp [List.all_eq_true, and_assoc]

/-- The trend sub-model only ever reports confidence 0.75 or 0.65. -/
theorem trend_conf_cases (results : List String) :
    (trend_analysis results).2 = 3/4 ∨ (trend_analysis results).2 = 13/20 := by
  simp only [trend_analysis]
  split_ifs <;> simp

/-- The pattern sub-model only ever reports confidence 0.5, 0.6 or
0.7. -/
theorem pattern_conf_cases (results : List String) :
    (pattern_analysis results).2 = 1/2 ∨ (pattern_analysis results).2 = 3/5 ∨
      (pattern_analysis results).2 = 7/10 := by
  rcases results with _ | ⟨r0, rest⟩ <;>
    simp only [pattern_analysis] <;> split_ifs <;> simp

/-! ## Claim theorems -/

/-- C1: for every training-data list with fewer than 10 elements, the
prediction engine returns the fallback result, category "Small" with
confidence 0.5, regardless of the contents of the list. -/
theorem fallback_below_min_samples (training_data : List TrainingRow)
    (h : training_data.length < 10) :
    quantum_prediction_engine training_data = fallback_prediction ∧
    (quantum_prediction_engine training_data).prediction = "Small" ∧
    (quantum_prediction_engine training_data).confidence = 1/2 := by
  have he : quantum_prediction_engine training_data = fallback_prediction := by
    unfold quantum_prediction_engine
    rw [if_pos h]
  exact ⟨he, by rw [he]; rfl, by rw [he]; rfl⟩

/-- Witness for C1 at the empty training list. -/
theorem fallback_below_min_samples_apply :
    quantum_prediction_engine [] = fallback_prediction ∧
    (quantum_prediction_engine []).prediction = "Small" ∧
    (quantum_prediction_engine []).confidence = 1/2 :=
  fallback_below_min_samples [] (by decide)

/-- C3: for every non-empty window of categories, the trend sub-model
returns ("Big", 0.75) when the fraction of "Big" exceeds 0.6, returns
("Small", 0.75) when that fraction is below 0.4, and otherwise returns
confidence 0.65 with the category picked by whether the fraction is at
least 0.5. -/
theorem trend_analysis_spec (results : List String) (h : results ≠ []) :
    ((results.count "Big" : ℚ) / results.length > 3/5 →
        trend_analysis results = ("Big", 3/4)) ∧
    ((results.count "Big" : ℚ) / results.length < 2/5 →
        trend_analysis results = ("Small", 3/4)) ∧
    (2/5 ≤ (results.count "Big" : ℚ) / results.length →
      (results.count "Big" : ℚ) / results.length ≤ 3/5 →
        trend_analysis results =
          ((if (results.count "Big" : ℚ) / results.length ≥ 1/2
            then "Big" else "Small"), 13/20)) := by
  simp only [trend_analysis, if_neg h]
  refine ⟨fun h1 => ?_, fun h1 => ?_, fun h1 h2 => ?_⟩
  · rw [if_pos h1]
  · rw [if_neg (not_lt.mpr (by linarith)), if_pos h1]
  · rw [if_neg (not_lt.mpr h2), if_neg (not_lt.mpr h1)]

/-- Witness for C3 at the 20-element window with 15 "Big" and 5
"Small": the trend sub-model outputs ("Big", 0.75). -/
theorem trend_analysis_spec_apply :
    trend_analysis demo20 = ("Big", 3/4) := by
  have h := trend_analysis_spec demo20 (by decide)
  refine h.1 ?_
  have h1 : demo20.count "Big" = 15 := by decide
  have h2 : demo20.length = 20 := by decide
  rw [h1, h2]
  norm_num

/-- C4: for every list of at least 3 categories, the pattern sub-model
measures the leading run of entries equal to the first element; a run
of at least 3 yields the opposite of the first category at confidence
0.70, anything shorter yields the first category at confidence 0.60. -/
theorem pattern_analysis_spec (r0 : String) (rest : List String)
    (hlen : 3 ≤ (r0 :: rest).length)
    (_hcat : ∀ s ∈ r0 :: rest, s = "Big" ∨ s = "Small") :
    pattern_analysis (r0 :: rest) =
      if ((r0 :: rest).takeWhile (fun s => s = r0)).length ≥ 3 then
        ((if r0 = "Big" then "Small" else "Big"), 7/10)
      else (r0, 3/5) := by
  have htw : ((r0 :: rest).takeWhile (fun s => s = r0)).length = patternStreak r0 rest := by
    rw [List.takeWhile_cons]
    simp [patternStreak]
    omega
  rw [htw]
  unfold pattern_analysis
  rw [if_neg (by omega : ¬ (r0 :: rest).length < 3)]

/-- Witness for C4 at a window opening with a 3-long "Big" run: the
sub-model calls the reversal ("Small", 0.70). -/
theorem pattern_analysis_spec_apply :
    pattern_analysis ["Big", "Big", "Big", "Small", "Big"] = ("Small", 7/10) := by
  have h := pattern_analysis_spec "Big" ["Big", "Big", "Small", "Big"]
    (by decide) (by decide)
  have hc : ((["Big", "Big", "Big", "Small", "Big"] :
      List String).takeWhile (fun s => s = "Big")).length ≥ 3 := by decide
  rw [h, if_pos hc, if_pos rfl]

/-- C5: the color of an extracted outcome is a pure function of the
draw value: for draw values in 0..9 it is green at 0, red at odd
values and violet at nonzero even values; every record the extractor
emits carries exactly that derived color. -/
theorem color_pure_function :
    (∀ v : Nat, v ≤ 9 →
      (v = 0 → colorOf v = "green") ∧
      (v % 2 = 1 → colorOf v = "red") ∧
      (v ≠ 0 → v % 2 = 0 → colorOf v = "violet")) ∧
    (∀ body : String, ∀ o ∈ extract_game_data body, o.color = colorOf o.number) := by
  constructor
  · intro v hv
    interval_cases v <;> exact ⟨by decide, by decide, by decide⟩
  · intro body o ho
    rw [extract_game_data_eq_go] at ho
    exact extractGo_color (pageLines body) o ho

/-- Witness for C5 at draw value 4 and at the record extracted from a
concrete page body. -/
theorem color_pure_function_apply :
    colorOf 4 = "violet" ∧ demoOutcome.color = colorOf demoOutcome.number := by
  constructor
  · exact (color_pure_function.1 4 (by decide)).2.2 (by decide) (by decide)
  · refine color_pure_function.2 demoBody demoOutcome ?_
    rw [extract_game_data_eq_go]
    decide

/-- C6: the extractor scans a 3-line window; a triple is accepted as
one Outcome iff the cleaned period candidate is digits-only of length
17, the cleaned draw candidate is digits-only with value in 0..9, and
the category candidate is exactly "Big" or "Small"; acceptance
advances the window by 3 lines, rejection by 1 line, and the scan
stops when fewer than 3 lines remain. -/
theorem extract_window_step (lines : List String) (i : Nat) :
    extractFrom lines i =
      if i + 2 < lines.length then
        if SpecAccept (stripSpacesHyphens (lines.getD i ""))
            (stripSpaces (lines.getD (i+1) "")) (lines.getD (i+2) "") then
          mkOutcome (stripSpacesHyphens (lines.getD i ""))
            (stripSpaces (lines.getD (i+1) "")) (lines.getD (i+2) "")
            :: extractFrom lines (i+3)
        else extractFrom lines (i+1)
      else [] := by
  conv_lhs => rw [extractFrom]
  by_cases hg : i + 2 < lines.length
  · rw [if_pos hg, if_pos hg]
    exact if_congr (acceptTriple_iff _ _ _) rfl rfl
  · rw [if_neg hg, if_neg hg]

/-- Counterexample to C7: on a page text repeating the same period in
two valid windows, one extraction run emits two records with the same
period, so a single output is not duplicate-free. -/
theorem extract_duplicate_periods :
    (extract_game_data dupBody).map Outcome.period =
      ["12345678901234567", "12345678901234567"] ∧
    ¬ ((extract_game_data dupBody).map Outcome.period).Nodup := by
  rw [extract_game_data_eq_go]
  exact ⟨by decide, by decide⟩

/-- C7 (amended): the extractor is deterministic — running it twice on
the same page text yields the same sequence of Outcomes.  Duplicate
periods can appear within one run when the page text repeats a period;
uniqueness of periods is enforced at the persistence boundary, not by
the extractor. -/
theorem extract_deterministic (body : String) :
    extract_game_data body = extract_game_data body := rfl

/-- C8: the scheduler is edge-triggered on the leading period — a
message is dispatched only when the truthy observed period differs
from the stored one, and after any step a second cycle observing the
same period never dispatches, so two consecutive cycles with the same
leading period dispatch at most one message. -/
theorem notify_edge_triggered (stored observed : Option String) :
    ((notifyStep stored observed).1 = true →
        pyTruthy observed = true ∧ observed ≠ stored) ∧
    (notifyStep (notifyStep stored observed).2 observed).1 = false := by
  unfold notifyStep
  by_cases hc : pyTruthy observed = true ∧ observed ≠ stored
  · simp only [if_pos hc]
    exact ⟨fun _ => hc, by simp⟩
  · simp only [if_neg hc]
    exact ⟨by simp, by simp [hc]⟩

/-- Witness for C8: from a fresh state, observing a truthy period
dispatches, and that period indeed differs from the stored None. -/
theorem notify_edge_triggered_apply :
    pyTruthy (some "20250101000000001") = true ∧
    (some "20250101000000001" : Option String) ≠ none :=
  (notify_edge_triggered none (some "20250101000000001")).1 (by decide)

/-- C9: the Telegram dispatcher returns a boolean on every path —
success exactly when both credentials are truthy and the post returns
status 200, an exception is swallowed into failure — and with either
credential absent it performs no send and returns failure. -/
theorem send_telegram_total_noop (botToken channelId : Option String)
    (net : NetOutcome) :
    ((send_telegram_message botToken channelId net).success = true ↔
      (pyTruthy botToken = true ∧ pyTruthy channelId = true ∧
        net = NetOutcome.status 200)) ∧
    (¬ (pyTruthy botToken = true ∧ pyTruthy channelId = true) →
      send_telegram_message botToken channelId net =
        { success := false, attempted := false }) := by
  unfold send_telegram_message
  by_cases hc : pyTruthy botToken = true ∧ pyTruthy channelId = true
  · rw [if_pos hc]
    cases net with
    | raises m => exact ⟨by simp [hc], fun hn => absurd hc hn⟩
    | status c => exact ⟨by simp [hc], fun hn => absurd hc hn⟩
  · rw [if_neg hc]
    exact ⟨⟨fun hx => absurd hx (by simp), fun hx => (hc ⟨hx.1, hx.2.1⟩).elim⟩,
      fun _ => rfl⟩

/-- Witness for C9: with the bot token absent the call is a no-op
returning failure. -/
theorem send_telegram_total_noop_apply :
    send_telegram_message none (some "channel") (NetOutcome.status 200) =
      { success := false, attempted := false } :=
  (send_telegram_total_noop none (some "channel") (NetOutcome.status 200)).2
    (by decide)

/-- C2: with at least 10 training rows, the fused category is the
Trend call when Trend is strictly more confident than Pattern and the
Pattern call otherwise; the fused confidence is the max of the Trend,
Pattern and Statistical confidences; and the Statistical sub-model
predicts "Big" at 0.65 exactly when the count of "Big" in the window
is at least half the window size, "Small" at 0.65 otherwise. -/
theorem fusion_argmax_confidence (training_data : List TrainingRow)
    (h : 10 ≤ training_data.length) :
    ((quantum_prediction_engine training_data).prediction =
      (if (trend_analysis (recentResults training_data)).2 >
          (pattern_analysis (recentResults training_data)).2
       then (trend_analysis (recentResults training_data)).1
       else (pattern_analysis (recentResults training_data)).1)) ∧
    ((quantum_prediction_engine training_data).confidence =
      max (trend_analysis (recentResults training_data)).2
        (max (pattern_analysis (recentResults training_data)).2
          (statistical_analysis (recentResults training_data)).2)) ∧
    (∀ results : List String,
      statistical_analysis results =
        ((if results.length ≤ 2 * results.count "Big" then "Big" else "Small"),
          13/20)) := by
  have hn : ¬ training_data.length < 10 := by omega
  refine ⟨?_, ?_, ?_⟩
  · simp only [quantum_prediction_engine, if_neg hn]
  · simp only [quantum_prediction_engine, if_neg hn]
  · intro results
    unfold statistical_analysis
    congr 1
    refine if_congr ?_ rfl rfl
    rw [ge_iff_le, div_le_iff₀ (by norm_num : (0:ℚ) < 2)]
    rw [show ((results.count "Big" : ℕ) : ℚ) * 2 =
        ((2 * results.count "Big" : ℕ) : ℚ) by push_cast; ring]
    exact Nat.cast_le

/-- Witness for C2 at twelve "Big" rows: the fused confidence is the
three-way max. -/
theorem fusion_argmax_confidence_apply :
    10 ≤ demoRows.length ∧
    (quantum_prediction_engine demoRows).confidence =
      max (trend_analysis (recentResults demoRows)).2
        (max (pattern_analysis (recentResults demoRows)).2
          (statistical_analysis (recentResults demoRows)).2) :=
  ⟨by decide, (fusion_argmax_confidence demoRows (by decide)).2.1⟩

/-- C10: with at least 10 training rows the fused confidence is one of
0.65, 0.70, 0.75 — in particular at least 0.65, the unconditional
Statistical contribution — so the fallback confidence 0.5 occurs only
with fewer than 10 samples. -/
theorem confidence_at_least_statistical (training_data : List TrainingRow) :
    (10 ≤ training_data.length →
      13/20 ≤ (quantum_prediction_engine training_data).confidence ∧
      ((quantum_prediction_engine training_data).confidence = 13/20 ∨
       (quantum_prediction_engine training_data).confidence = 7/10 ∨
       (quantum_prediction_engine training_data).confidence = 3/4)) ∧
    ((quantum_prediction_engine training_data).confidence = 1/2 →
      training_data.length < 10) := by
  have hmax : ∀ _h : ¬ training_data.length < 10,
      (quantum_prediction_engine training_data).confidence =
        max (trend_analysis (recentResults training_data)).2
          (max (pattern_analysis (recentResults training_data)).2 (13/20)) := by
    intro hn
    simp only [quantum_prediction_engine, if_neg hn]
    rfl
  constructor
  · intro h10
    have hn : ¬ training_data.length < 10 := by omega
    rw [hmax hn]
    rcases trend_conf_cases (recentResults training_data) with ht | ht <;>
      rcases pattern_conf_cases (recentResults training_data) with hp | hp | hp <;>
      rw [ht, hp] <;> norm_num [max_def]
  · intro h12
    by_contra hlt
    rcases trend_conf_cases (recentResults training_data) with ht | ht <;>
      rcases pattern_conf_cases (recentResults training_data) with hp | hp | hp <;>
      rw [hmax hlt, ht, hp] at h12 <;> norm_num [max_def] at h12

/-- Witness for C10 at twelve "Big" rows. -/
theorem confidence_at_least_statistical_apply :
    13/20 ≤ (quantum_prediction_engine demoRows).confidence ∧
    ((quantum_prediction_engine demoRows).confidence = 13/20 ∨
     (quantum_prediction_engine demoRows).confidence = 7/10 ∨
     (quantum_prediction_engine demoRows).confidence = 3/4) :=
  (confidence_at_least_statistical demoRows).1 (by decide)

end QuantumExpertSystem
